import Mathlib

/-!
Shallow embedding of the surf-condition analysis service and of the
LLM-response parser of the `ia-surf-conditions` repository, together with
theorems settling the specification claims about them.

Numbers (heights in feet, periods in seconds, wind speeds in mph,
temperatures, UV indices) are embedded as rationals; JS `Math.random`
draws are passed in as explicit parameters; asynchronous fetches are
embedded as `Except String` values and `Promise.all` as a function that
propagates the first error.
-/

/-- Wave quality levels (`type WaveQuality` in `types/surf.ts`). -/
inductive WaveQuality where
  | poor
  | fair
  | good
  | excellent
deriving DecidableEq, Repr

/-- Spot difficulty levels (`type DifficultyLevel` in `types/surf.ts`). -/
inductive DifficultyLevel where
  | beginner
  | intermediate
  | advanced
  | expert
deriving DecidableEq, Repr

/-- Break types (`type BreakType` in `types/surf.ts`). -/
inductive BreakType where
  | beach_break
  | reef_break
  | point_break
  | river_mouth
  | jetty
deriving DecidableEq, Repr

/-- Tide type (high or low, from `types/surf.ts`). -/
inductive TideType where
  | high
  | low
deriving DecidableEq, Repr

/-- `interface WaveData` from `types/surf.ts`. -/
structure WaveData where
  height : ℚ
  period : ℚ
  direction : ℚ
  quality : WaveQuality
deriving DecidableEq, Repr

/-- `interface WindData` from `types/surf.ts`. -/
structure WindData where
  speed : ℚ
  direction : ℚ
  gust : ℚ
deriving DecidableEq, Repr

/-- `interface TideData` from `types/surf.ts` (the `time : Date` field is
not modelled; no claim depends on wall-clock time). -/
structure TideData where
  height : ℚ
  tideType : TideType
deriving DecidableEq, Repr

/-- `interface WeatherData` from `types/surf.ts`. -/
structure WeatherData where
  temperature : ℚ
  humidity : ℚ
  pressure : ℚ
  visibility : ℚ
  uvIndex : ℚ
deriving DecidableEq, Repr

/-- `interface SurfSpot` from `types/surf.ts` (the coordinates and the
best-conditions envelope are never read by the functions under
verification and are not modelled). -/
structure SurfSpot where
  id : String
  name : String
  breakType : BreakType
  difficulty : DifficultyLevel
deriving DecidableEq, Repr

/-- The aggregate result of `analyzeSurfConditions`
(`interface SurfConditions` in `types/surf.ts`; the `timestamp : Date`
field is not modelled). -/
structure SurfConditionsResult where
  location : String
  waves : WaveData
  wind : WindData
  tide : TideData
  weather : WeatherData
  rating : ℕ
  recommendations : List String
deriving DecidableEq, Repr

/-- `SurfService.assessWaveQuality` from `services/surfService.ts`:
adds a height band score, a period band score and a wind band score, then
maps the total through fixed thresholds. -/
def assessWaveQuality (height period windSpeed : ℚ) : WaveQuality :=
  let score : ℕ :=
    (if 2 ≤ height ∧ height ≤ 6 then 3
     else if 3/2 ≤ height ∧ height ≤ 8 then 2
     else if 1 ≤ height ∧ height ≤ 10 then 1
     else 0)
    + (if 12 ≤ period then 3
       else if 8 ≤ period then 2
       else if 6 ≤ period then 1
       else 0)
    + (if windSpeed ≤ 10 then 3
       else if windSpeed ≤ 15 then 2
       else if windSpeed ≤ 20 then 1
       else 0)
  if 8 ≤ score then .excellent
  else if 6 ≤ score then .good
  else if 4 ≤ score then .fair
  else .poor

/-- `SurfService.calculateSurfRating` from `services/surfService.ts`:
starts at 1, adds 1 for each satisfied condition, and clamps the result
with `Math.min(Math.max(rating, 1), 5)`.  The `weather` and `spot`
arguments are taken but never read, as in the source. -/
def calculateSurfRating (waves : WaveData) (wind : WindData)
    (_weather : WeatherData) (_spot : SurfSpot) : ℕ :=
  let rating : ℕ := 1
    + (if 3 ≤ waves.height ∧ waves.height ≤ 6 then 1 else 0)
    + (if 10 ≤ waves.period then 1 else 0)
    + (if waves.quality = .excellent ∨ waves.quality = .good then 1 else 0)
    + (if wind.speed ≤ 15 then 1 else 0)
  min (max rating 1) 5

/-- The canned recommendation strings of
`SurfService.generateRecommendations`. -/
def recSmallWaves : String := "Waves are quite small - good for beginners or longboarding"

def recLargeWaves : String := "Large waves - experienced surfers only"

def recGoodSize : String := "Good wave size for most skill levels"

def recStrongWind : String := "Strong winds - conditions may be choppy"

def recLightWind : String := "Light winds - clean conditions expected"

def recHighUV : String := "High UV index - wear sunscreen and protective gear"

def recColdWater : String := "Cold water - consider wearing a wetsuit"

def recTooLargeForBeginners : String := "Waves may be too large for beginners"

def recTooSmallForExperts : String := "Waves may be too small for advanced surfers"

/-- `SurfService.generateRecommendations` from `services/surfService.ts`:
pushes a wave-size comment (three-way if/else-if/else), then a wind
comment (if/else-if), then independent ifs for UV, temperature and the
two skill mismatches. -/
def generateRecommendations (waves : WaveData) (wind : WindData)
    (weather : WeatherData) (spot : SurfSpot) : List String :=
  (if waves.height < 2 then [recSmallWaves]
   else if 8 < waves.height then [recLargeWaves]
   else [recGoodSize])
  ++ (if 20 < wind.speed then [recStrongWind]
      else if wind.speed < 10 then [recLightWind]
      else [])
  ++ (if 7 < weather.uvIndex then [recHighUV] else [])
  ++ (if weather.temperature < 60 then [recColdWater] else [])
  ++ (if spot.difficulty = .beginner ∧ 4 < waves.height then [recTooLargeForBeginners] else [])
  ++ (if spot.difficulty = .expert ∧ waves.height < 2 then [recTooSmallForExperts] else [])

/-- `SurfService.generateWaveData` from `services/surfService.ts`.  The
three `Math.random()` draws are passed in as `r1 r2 r3`. -/
def generateWaveData (wind : WindData) (_tide : TideData) (r1 r2 r3 : ℚ) : WaveData :=
  let baseHeight := 2 + r1 * 4
  let period := 8 + r2 * 8
  let direction := r3 * 360
  { height := baseHeight
    period := period
    direction := direction
    quality := assessWaveQuality baseHeight period wind.speed }

/-- The default tide used when the tide list is empty
(`tides[0]` with a default of height 3 and high tide type). -/
def defaultTide : TideData := { height := 3, tideType := .high }

/-- `Promise.all` over the three weather fetches: the join succeeds when
all succeed and otherwise rejects with the error of a failed fetch. -/
def promiseAll3 {A B C : Type} :
    Except String A → Except String B → Except String C → Except String (A × B × C)
  | .error e, _, _ => .error e
  | .ok _, .error e, _ => .error e
  | .ok _, .ok _, .error e => .error e
  | .ok a, .ok b, .ok c => .ok (a, b, c)

/-- `SurfService.analyzeSurfConditions` from `services/surfService.ts`:
joins the three fetches, synthesises wave data, computes the rating and
the recommendations, and wraps any failure in the generic
`Failed to analyze surf conditions: ` error. -/
def analyzeSurfConditions (fetchWeather : Except String WeatherData)
    (fetchWind : Except String WindData)
    (fetchTides : Except String (List TideData))
    (r1 r2 r3 : ℚ) (spot : SurfSpot) : Except String SurfConditionsResult :=
  match promiseAll3 fetchWeather fetchWind fetchTides with
  | .error e => .error ("Failed to analyze surf conditions: " ++ e)
  | .ok (weather, wind, tides) =>
    let firstTide := tides.headD defaultTide
    let waves := generateWaveData wind firstTide r1 r2 r3
    let rating := calculateSurfRating waves wind weather spot
    let recs := generateRecommendations waves wind weather spot
    .ok { location := spot.name
          waves := waves
          wind := wind
          tide := firstTide
          weather := weather
          rating := rating
          recommendations := recs }

/-! ## The LLM-response parser of `services/llamaService.ts`

`parseLLMResponse` runs `content.match(/\x7b[\s\S]*\x7d/)` and, when the
regex matches, `JSON.parse`s the matched substring inside a `try` whose
`catch` returns a fallback object; when the regex does not match, it
returns a fallback object with a different confidence.  Strings are
embedded as `List Char`, and `JSON.parse` — an opaque JS builtin — as an
arbitrary `List Char → Option J` (with `none` standing for a thrown,
caught exception); the regex is embedded operationally below. -/

/-- The opening-brace character. -/
def openBrace : Char := Char.ofNat 123

/-- The closing-brace character. -/
def closeBrace : Char := Char.ofNat 125

/-- Index of the first occurrence of `c`, if any.  This is the start
position the JS regex engine selects for a pattern beginning with a
literal character: match attempts proceed left to right. -/
def idxOfFirst (c : Char) : List Char → Option Nat
  | [] => none
  | a :: as => if a = c then some 0 else (idxOfFirst c as).map (· + 1)

/-- Index of the last occurrence of `c`, if any.  This is where the
greedy `[\s\S]*` of the regex backtracks to: the final literal character
is matched as late as possible. -/
def idxOfLast (c : Char) : List Char → Option Nat
  | [] => none
  | a :: as =>
    match idxOfLast c as with
    | some j => some (j + 1)
    | none => if a = c then some 0 else none

/-- Embedding of `content.match(/\x7b[\s\S]*\x7d/)`: the match, when it
exists, starts at the first opening brace and the greedy star extends it
to the last closing brace occurring after that opening brace. -/
def regexBraceMatch (s : List Char) : Option (List Char) :=
  match idxOfFirst openBrace s with
  | none => none
  | some i =>
    match idxOfLast closeBrace (s.drop (i + 1)) with
    | none => none
    | some k => some ((s.drop i).take (k + 2))

/-- The `any` value returned by `parseLLMResponse`: either the object
produced by `JSON.parse`, or a fallback object with the four fields
`analysis`, `recommendations`, `confidence`, `bestTime`. -/
inductive LLMParseResult (J : Type) where
  | parsed : J → LLMParseResult J
  | fallback : List Char → List (List Char) → ℕ → List Char → LLMParseResult J
deriving DecidableEq, Repr

/-- The fixed best-time string of both fallback objects. -/
def bestTimeDefault : List Char := String.toList "Morning (6-10 AM)"

/-- `LlamaService.parseLLMResponse` from `services/llamaService.ts`,
parameterised by the opaque `JSON.parse` (`none` = parse threw and was
caught by the surrounding `catch`). -/
def parseLLMResponse {J : Type} (jsonParse : List Char → Option J)
    (content : List Char) : LLMParseResult J :=
  match regexBraceMatch content with
  | some sub =>
    match jsonParse sub with
    | some j => .parsed j
    | none => .fallback content [content] 5 bestTimeDefault
  | none => .fallback content [content] 7 bestTimeDefault

/-! ## Spec-side definitions

These definitions follow the words of the specification; the theorems below
compare them with the embedded source functions. -/

/-- Height band points as the spec states them: 3 points for [2,6] ft,
else 2 for [1.5,8], else 1 for [1,10], else 0. -/
def heightPointsSpec (h : ℚ) : ℕ :=
  if 2 ≤ h ∧ h ≤ 6 then 3
  else if 3/2 ≤ h ∧ h ≤ 8 then 2
  else if 1 ≤ h ∧ h ≤ 10 then 1
  else 0

/-- Period band points as the spec states them: 3 points for ≥ 12 s,
else 2 for ≥ 8, else 1 for ≥ 6, else 0. -/
def periodPointsSpec (p : ℚ) : ℕ :=
  if 12 ≤ p then 3
  else if 8 ≤ p then 2
  else if 6 ≤ p then 1
  else 0

/-- Wind band points as the spec states them: 3 points for ≤ 10 mph,
else 2 for ≤ 15, else 1 for ≤ 20, else 0. -/
def windPointsSpec (w : ℚ) : ℕ :=
  if w ≤ 10 then 3
  else if w ≤ 15 then 2
  else if w ≤ 20 then 1
  else 0

/-- The score-to-quality map of the spec: ≥ 8 excellent, ≥ 6 good, ≥ 4 fair,
else poor. -/
def qualityFromScoreSpec (score : ℕ) : WaveQuality :=
  if 8 ≤ score then .excellent
  else if 6 ≤ score then .good
  else if 4 ≤ score then .fair
  else .poor

/-- `calculateSurfRating` with the final `Math.min(Math.max(·,1),5)`
clamp removed: 1 plus one point per satisfied condition. -/
def calculateSurfRatingUnclamped (waves : WaveData) (wind : WindData)
    (_weather : WeatherData) (_spot : SurfSpot) : ℕ :=
  1 + (if 3 ≤ waves.height ∧ waves.height ≤ 6 then 1 else 0)
    + (if 10 ≤ waves.period then 1 else 0)
    + (if waves.quality = .excellent ∨ waves.quality = .good then 1 else 0)
    + (if wind.speed ≤ 15 then 1 else 0)

/-- The order poor < fair < good < excellent, as a rank. -/
def qualityRank : WaveQuality → ℕ
  | .poor => 0
  | .fair => 1
  | .good => 2
  | .excellent => 3

/-! ## Helper lemmas -/

/-- `assessWaveQuality` decomposes as the three band scores of the spec fed
through the score-to-quality map of the spec. -/
theorem assessWaveQuality_eq_spec (h p w : ℚ) :
    assessWaveQuality h p w =
      qualityFromScoreSpec (heightPointsSpec h + periodPointsSpec p + windPointsSpec w) := rfl

/-- Wind band points are antitone in wind speed. -/
theorem windPointsSpec_antitone {w1 w2 : ℚ} (hw : w1 ≤ w2) :
    windPointsSpec w2 ≤ windPointsSpec w1 := by
  unfold windPointsSpec
  split_ifs <;> first | omega | (exfalso; linarith)

/-- The score-to-quality map is monotone with respect to `qualityRank`. -/
theorem qualityFromScoreSpec_mono {s1 s2 : ℕ} (hs : s1 ≤ s2) :
    qualityRank (qualityFromScoreSpec s1) ≤ qualityRank (qualityFromScoreSpec s2) := by
  unfold qualityFromScoreSpec
  split_ifs <;> simp only [qualityRank] <;> omega

/-! ## Claims about the rating heuristics -/

/-- C1: for every height, period and wind speed, `assessWaveQuality`
computes the additive band score of the spec — height band (3/2/1/0),
plus period band (3/2/1/0), plus wind band (3/2/1/0) — and maps the
total through ≥8 → excellent, ≥6 → good, ≥4 → fair, else poor; the
function is total, so no input (negative values included) is rejected. -/
theorem assessWaveQuality_additive_spec (h p w : ℚ) :
    assessWaveQuality h p w =
      qualityFromScoreSpec (heightPointsSpec h + periodPointsSpec p + windPointsSpec w) :=
  assessWaveQuality_eq_spec h p w

/-- C2: `calculateSurfRating` is 1 plus one point per satisfied
condition (height in [3,6], period ≥ 10, quality good or excellent,
wind ≤ 15), clamped with min/max; consequently the result always lies
in [1,5]. -/
theorem calculateSurfRating_spec_and_bounds (waves : WaveData) (wind : WindData)
    (weather : WeatherData) (spot : SurfSpot) :
    calculateSurfRating waves wind weather spot =
      min (max (1 + (if 3 ≤ waves.height ∧ waves.height ≤ 6 then 1 else 0)
                  + (if 10 ≤ waves.period then 1 else 0)
                  + (if waves.quality = .excellent ∨ waves.quality = .good then 1 else 0)
                  + (if wind.speed ≤ 15 then 1 else 0)) 1) 5
      ∧ 1 ≤ calculateSurfRating waves wind weather spot
      ∧ calculateSurfRating waves wind weather spot ≤ 5 := by
  refine ⟨rfl, ?_, ?_⟩ <;>
    (unfold calculateSurfRating; split_ifs <;> simp)

/-- C3 counterexample: at height = 3 ft, period = 12 s, wind = 8 mph the
score is 3 + 3 + 3 = 9, so `assessWaveQuality` does not return good. -/
theorem assessWaveQuality_3_12_8_ne_good :
    assessWaveQuality 3 12 8 ≠ WaveQuality.good := by decide

/-- C3 amended: for height = 3 ft, period = 12 s, wind speed = 8 mph,
`assessWaveQuality` returns excellent (score 9 ≥ 8). -/
theorem assessWaveQuality_3_12_8_excellent :
    assessWaveQuality 3 12 8 = WaveQuality.excellent := by decide

/-- C8: the final clamp of `calculateSurfRating` is redundant — the
pre-clamp rating already lies in [1,5], and the clamped function is
extensionally equal to the unclamped `1 + number of satisfied
conditions`. -/
theorem calculateSurfRating_clamp_redundant (waves : WaveData) (wind : WindData)
    (weather : WeatherData) (spot : SurfSpot) :
    1 ≤ calculateSurfRatingUnclamped waves wind weather spot
    ∧ calculateSurfRatingUnclamped waves wind weather spot ≤ 5
    ∧ calculateSurfRating waves wind weather spot =
        calculateSurfRatingUnclamped waves wind weather spot := by
  unfold calculateSurfRating calculateSurfRatingUnclamped
  refine ⟨?_, ?_, ?_⟩ <;> split_ifs <;> simp

/-- C9: `assessWaveQuality` is antitone in wind speed — for fixed height
and period, a larger wind speed never yields a strictly better quality
in the order poor < fair < good < excellent. -/
theorem assessWaveQuality_antitone_in_wind (h p w1 w2 : ℚ) (hw : w1 ≤ w2) :
    qualityRank (assessWaveQuality h p w2) ≤ qualityRank (assessWaveQuality h p w1) := by
  rw [assessWaveQuality_eq_spec, assessWaveQuality_eq_spec]
  exact qualityFromScoreSpec_mono
    (Nat.add_le_add_left (windPointsSpec_antitone hw) _)

/-- Witness for C9 at height 3 ft, period 12 s, wind speeds 8 ≤ 20. -/
theorem assessWaveQuality_antitone_in_wind_witness :
    (8:ℚ) ≤ 20 ∧
      qualityRank (assessWaveQuality 3 12 20) ≤ qualityRank (assessWaveQuality 3 12 8) :=
  ⟨by decide, assessWaveQuality_antitone_in_wind 3 12 8 20 (by decide)⟩

/-! ## Claims about recommendations and error wrapping -/

/-- Wave-size comment test (one of the three mutually exclusive
wave-size strings). -/
def isWaveSizeComment (msg : String) : Bool :=
  msg == recSmallWaves || msg == recLargeWaves || msg == recGoodSize

/-- C5: `generateRecommendations` always returns a non-empty list whose
head is the unique wave-size comment (small if height < 2, large if
height > 8, else the baseline), followed by each advisory exactly when
its threshold condition holds, in evaluation order; in particular the
list contains exactly one wave-size comment. -/
theorem generateRecommendations_structure (waves : WaveData) (wind : WindData)
    (weather : WeatherData) (spot : SurfSpot) :
    generateRecommendations waves wind weather spot =
      (if waves.height < 2 then recSmallWaves
       else if 8 < waves.height then recLargeWaves
       else recGoodSize)
      :: ((if 20 < wind.speed then [recStrongWind] else [])
        ++ (if wind.speed < 10 then [recLightWind] else [])
        ++ (if 7 < weather.uvIndex then [recHighUV] else [])
        ++ (if weather.temperature < 60 then [recColdWater] else [])
        ++ (if spot.difficulty = .beginner ∧ 4 < waves.height then [recTooLargeForBeginners] else [])
        ++ (if spot.difficulty = .expert ∧ waves.height < 2 then [recTooSmallForExperts] else []))
    ∧ generateRecommendations waves wind weather spot ≠ []
    ∧ (generateRecommendations waves wind weather spot).countP isWaveSizeComment = 1 := by
  refine ⟨?_, ?_, ?_⟩ <;>
    (unfold generateRecommendations; split_ifs <;> first | decide | (exfalso; linarith))

/-- A successful weather reading (values from the repository test suite). -/
def weatherSample : WeatherData :=
  { temperature := 72, humidity := 65, pressure := 1013, visibility := 10, uvIndex := 5 }

/-- A successful wind reading (values from the repository test suite). -/
def windSample : WindData := { speed := 12, direction := 270, gust := 15 }

/-- The test spot of the repository test suite. -/
def spotSample : SurfSpot :=
  { id := "test-1", name := "Test Beach", breakType := .beach_break, difficulty := .intermediate }

/-- C6: whenever any of the weather, wind or tide fetches fails,
`analyzeSurfConditions` fails with the generic label followed by the
underlying error, and produces no (partial) result. -/
theorem analyzeSurfConditions_error_wrapping
    (fetchWeather : Except String WeatherData) (fetchWind : Except String WindData)
    (fetchTides : Except String (List TideData)) (r1 r2 r3 : ℚ) (spot : SurfSpot)
    (hfail : (∃ e, fetchWeather = .error e) ∨ (∃ e, fetchWind = .error e)
      ∨ (∃ e, fetchTides = .error e)) :
    ∃ e, analyzeSurfConditions fetchWeather fetchWind fetchTides r1 r2 r3 spot
        = .error ("Failed to analyze surf conditions: " ++ e)
      ∧ (fetchWeather = .error e ∨ fetchWind = .error e ∨ fetchTides = .error e) := by
  cases fetchWeather with
  | error e => exact ⟨e, rfl, Or.inl rfl⟩
  | ok wd =>
    cases fetchWind with
    | error e => exact ⟨e, rfl, Or.inr (Or.inl rfl)⟩
    | ok wi =>
      cases fetchTides with
      | error e => exact ⟨e, rfl, Or.inr (Or.inr rfl)⟩
      | ok td =>
        rcases hfail with ⟨e, he⟩ | ⟨e, he⟩ | ⟨e, he⟩ <;> exact Except.noConfusion he

/-- Witness for C6: a failing weather fetch with the error of the test. -/
theorem analyzeSurfConditions_error_wrapping_witness :
    ((∃ e, (Except.error "API Error" : Except String WeatherData) = .error e)
      ∨ (∃ e, (Except.ok windSample : Except String WindData) = .error e)
      ∨ (∃ e, (Except.ok ([] : List TideData) : Except String (List TideData)) = .error e))
    ∧ ∃ e, analyzeSurfConditions (Except.error "API Error") (Except.ok windSample)
          (Except.ok []) 0 0 0 spotSample
        = .error ("Failed to analyze surf conditions: " ++ e)
      ∧ ((Except.error "API Error" : Except String WeatherData) = .error e
          ∨ (Except.ok windSample : Except String WindData) = .error e
          ∨ (Except.ok ([] : List TideData) : Except String (List TideData)) = .error e) :=
  ⟨Or.inl ⟨"API Error", rfl⟩,
    analyzeSurfConditions_error_wrapping _ _ _ 0 0 0 spotSample (Or.inl ⟨"API Error", rfl⟩)⟩

/-! ## Index lemmas for the brace regex -/

/-- Soundness of `idxOfFirst`: the returned index holds `c` and no
earlier index does. -/
theorem idxOfFirst_spec {c : Char} :
    ∀ {s : List Char} {i : ℕ}, idxOfFirst c s = some i →
      s[i]? = some c ∧ ∀ k < i, s[k]? ≠ some c := by
  intro s
  induction s with
  | nil => intro i h; simp [idxOfFirst] at h
  | cons a as ih =>
    intro i h
    rw [idxOfFirst] at h
    split_ifs at h with hac
    · have h0 : (0:ℕ) = i := by injection h
      subst h0
      refine ⟨by simp [hac], ?_⟩
      intro k hk
      omega
    · rcases Option.map_eq_some'.mp h with ⟨j, hj, rfl⟩
      obtain ⟨h1, h2⟩ := ih hj
      refine ⟨by simpa using h1, ?_⟩
      intro k hk
      cases k with
      | zero => simp [hac]
      | succ m =>
        rw [List.getElem?_cons_succ]
        exact h2 m (by omega)

/-- Completeness of `idxOfFirst`: an index holding `c` with no earlier
occurrence is the one returned. -/
theorem idxOfFirst_complete {c : Char} :
    ∀ {s : List Char} {i : ℕ}, s[i]? = some c → (∀ k < i, s[k]? ≠ some c) →
      idxOfFirst c s = some i := by
  intro s
  induction s with
  | nil => intro i h _; simp at h
  | cons a as ih =>
    intro i h hmin
    cases i with
    | zero =>
      rw [List.getElem?_cons_zero] at h
      have hac : a = c := by injection h
      rw [idxOfFirst, if_pos hac]
    | succ j =>
      have hac : ¬ (a = c) := by
        have h0 := hmin 0 (Nat.succ_pos j)
        rw [List.getElem?_cons_zero] at h0
        intro hh
        exact h0 (by rw [hh])
      rw [List.getElem?_cons_succ] at h
      have hmin' : ∀ k < j, as[k]? ≠ some c := by
        intro k hk
        have hcons := hmin (k + 1) (by omega)
        rwa [List.getElem?_cons_succ] at hcons
      rw [idxOfFirst, if_neg hac, ih h hmin']
      rfl

/-- When `idxOfLast` finds nothing, `c` occurs nowhere. -/
theorem idxOfLast_none {c : Char} :
    ∀ {s : List Char}, idxOfLast c s = none → ∀ k : ℕ, s[k]? ≠ some c := by
  intro s
  induction s with
  | nil => intro _ k; simp
  | cons a as ih =>
    intro h k
    unfold idxOfLast at h
    cases hr : idxOfLast c as with
    | some j => simp [hr] at h
    | none =>
      simp only [hr] at h
      split_ifs at h with hac
      cases k with
      | zero => simp [hac]
      | succ m =>
        rw [List.getElem?_cons_succ]
        exact ih hr m

/-- Soundness of `idxOfLast`: the returned index holds `c` and no later
index does. -/
theorem idxOfLast_spec {c : Char} :
    ∀ {s : List Char} {i : ℕ}, idxOfLast c s = some i →
      s[i]? = some c ∧ ∀ k, i < k → s[k]? ≠ some c := by
  intro s
  induction s with
  | nil => intro i h; simp [idxOfLast] at h
  | cons a as ih =>
    intro i h
    unfold idxOfLast at h
    cases hr : idxOfLast c as with
    | some j =>
      simp only [hr] at h
      have hji : j + 1 = i := by injection h
      subst hji
      obtain ⟨h1, h2⟩ := ih hr
      refine ⟨by simpa using h1, ?_⟩
      intro k hk
      cases k with
      | zero => omega
      | succ m =>
        rw [List.getElem?_cons_succ]
        exact h2 m (by omega)
    | none =>
      simp only [hr] at h
      split_ifs at h with hac
      have h0 : (0:ℕ) = i := by injection h
      subst h0
      refine ⟨by simp [hac], ?_⟩
      intro k hk
      cases k with
      | zero => omega
      | succ m =>
        rw [List.getElem?_cons_succ]
        exact idxOfLast_none hr m

/-- Completeness of `idxOfLast`: an index holding `c` with no later
occurrence is the one returned. -/
theorem idxOfLast_complete {c : Char} :
    ∀ {s : List Char} {i : ℕ}, s[i]? = some c → (∀ k, i < k → s[k]? ≠ some c) →
      idxOfLast c s = some i := by
  intro s
  induction s with
  | nil => intro i h _; simp at h
  | cons a as ih =>
    intro i h hmax
    cases i with
    | zero =>
      rw [List.getElem?_cons_zero] at h
      have hac : a = c := by injection h
      have hnone : idxOfLast c as = none := by
        cases hr : idxOfLast c as with
        | none => rfl
        | some j =>
          exfalso
          have h1 := (idxOfLast_spec hr).1
          exact hmax (j + 1) (Nat.succ_pos j) (by rwa [List.getElem?_cons_succ])
      unfold idxOfLast
      simp [hnone, hac]
    | succ j =>
      rw [List.getElem?_cons_succ] at h
      have hmax' : ∀ k, j < k → as[k]? ≠ some c := by
        intro k hk
        have hcons := hmax (k + 1) (by omega)
        rwa [List.getElem?_cons_succ] at hcons
      unfold idxOfLast
      rw [ih h hmax']

/-- The regex match, when the reply holds its first opening brace at `a`
and its last closing brace at `b > a`, is the slice from `a` through `b`
inclusive. -/
theorem regexBraceMatch_eq_slice (s : List Char) (a b : ℕ)
    (ha1 : s[a]? = some openBrace) (ha2 : ∀ k < a, s[k]? ≠ some openBrace)
    (hb1 : s[b]? = some closeBrace) (hb2 : ∀ k : ℕ, b < k → s[k]? ≠ some closeBrace)
    (hab : a < b) :
    regexBraceMatch s = some ((s.take (b + 1)).drop a) := by
  have h1 : idxOfFirst openBrace s = some a := idxOfFirst_complete ha1 ha2
  have h2 : idxOfLast closeBrace (s.drop (a + 1)) = some (b - (a + 1)) := by
    apply idxOfLast_complete
    · rw [List.getElem?_drop]
      have hsum : a + 1 + (b - (a + 1)) = b := by omega
      rw [hsum]
      exact hb1
    · intro k hk
      rw [List.getElem?_drop]
      exact hb2 (a + 1 + k) (by omega)
  unfold regexBraceMatch
  simp only [h1, h2]
  rw [List.drop_take]
  have hcount : b - (a + 1) + 2 = b + 1 - a := by omega
  rw [hcount]

/-! ## Claims about the LLM-response parser -/

/-- C7: for every reply holding an opening brace strictly before a
closing brace, the regex match of `parseLLMResponse` is the greedy one —
from the first opening brace of the reply through its last closing
brace, with no balancing of nested braces — and `JSON.parse` is applied
to exactly that substring, a successful parse being returned as the
result and a throwing parse being replaced by the confidence-5
fallback. -/
theorem parseLLMResponse_greedy_brace (s : List Char) (a b : ℕ)
    (ha1 : s[a]? = some openBrace) (ha2 : ∀ k < a, s[k]? ≠ some openBrace)
    (hb1 : s[b]? = some closeBrace) (hb2 : ∀ k : ℕ, b < k → s[k]? ≠ some closeBrace)
    (hab : a < b) :
    regexBraceMatch s = some ((s.take (b + 1)).drop a)
    ∧ ∀ (J : Type) (jsonParse : List Char → Option J),
        parseLLMResponse jsonParse s =
          (match jsonParse ((s.take (b + 1)).drop a) with
           | some v => LLMParseResult.parsed v
           | none => LLMParseResult.fallback s [s] 5 bestTimeDefault) := by
  have hm := regexBraceMatch_eq_slice s a b ha1 ha2 hb1 hb2 hab
  refine ⟨hm, ?_⟩
  intro J jsonParse
  unfold parseLLMResponse
  rw [hm]

/-- A small reply containing a brace pair, for the witness below. -/
def braceSample : List Char := [openBrace, 'a', closeBrace]

/-- Witness for C7 on the reply `\x7ba\x7d` with first opening brace at
index 0 and last closing brace at index 2. -/
theorem parseLLMResponse_greedy_brace_witness :
    regexBraceMatch braceSample = some ((braceSample.take (2 + 1)).drop 0)
    ∧ ∀ (J : Type) (jsonParse : List Char → Option J),
        parseLLMResponse jsonParse braceSample =
          (match jsonParse ((braceSample.take (2 + 1)).drop 0) with
           | some v => LLMParseResult.parsed v
           | none => LLMParseResult.fallback braceSample [braceSample] 5 bestTimeDefault) :=
  parseLLMResponse_greedy_brace braceSample 0 2 (by decide)
    (by intro k hk; omega)
    (by decide)
    (by
      intro k hk h
      have hnone : braceSample[k]? = none := by
        apply List.getElem?_eq_none
        simp only [braceSample, List.length_cons, List.length_nil]
        omega
      rw [hnone] at h
      exact Option.noConfusion h)
    (by omega)

/-- C4 counterexample: the fallback object returned on brace-free input
is not independent of the input text — its `analysis` and
`recommendations` fields echo the input, so two different brace-free
inputs yield different results. -/
theorem parseLLMResponse_fallback_not_constant :
    parseLLMResponse (fun _ => (none : Option Unit)) (String.toList "hello")
      = LLMParseResult.fallback (String.toList "hello") [String.toList "hello"] 7 bestTimeDefault
    ∧ parseLLMResponse (fun _ => (none : Option Unit)) (String.toList "hello")
      ≠ parseLLMResponse (fun _ => (none : Option Unit)) (String.toList "later") := by
  constructor <;> decide

/-- C4 amended: for every input string containing no opening brace
strictly before a closing brace, `parseLLMResponse` returns the
fallback object with the fixed confidence 7 and the fixed best-time
string, but whose `analysis` and `recommendations` echo the input text
(they are not canned and the object is not independent of the input). -/
theorem parseLLMResponse_no_brace_fallback {J : Type}
    (jsonParse : List Char → Option J) (s : List Char)
    (hnb : ∀ j < s.length, ∀ i < j,
      ¬(s[i]? = some openBrace ∧ s[j]? = some closeBrace)) :
    parseLLMResponse jsonParse s = .fallback s [s] 7 bestTimeDefault := by
  have hnone : regexBraceMatch s = none := by
    cases h1 : idxOfFirst openBrace s with
    | none => unfold regexBraceMatch; simp only [h1]
    | some a =>
      cases h2 : idxOfLast closeBrace (s.drop (a + 1)) with
      | none => unfold regexBraceMatch; simp only [h1, h2]
      | some k =>
        exfalso
        have hfa := (idxOfFirst_spec h1).1
        have hlb := (idxOfLast_spec h2).1
        rw [List.getElem?_drop] at hlb
        have hlen : a + 1 + k < s.length := by
          rcases List.getElem?_eq_some.mp hlb with ⟨hlt, _⟩
          exact hlt
        exact hnb (a + 1 + k) hlen a (by omega) ⟨hfa, hlb⟩
  unfold parseLLMResponse
  rw [hnone]

/-- Witness for C4 on a brace-free input. -/
theorem parseLLMResponse_no_brace_fallback_witness :
    (∀ j < (String.toList "no json here").length, ∀ i < j,
      ¬((String.toList "no json here")[i]? = some openBrace
        ∧ (String.toList "no json here")[j]? = some closeBrace))
    ∧ parseLLMResponse (fun _ => (none : Option Unit)) (String.toList "no json here")
        = .fallback (String.toList "no json here") [String.toList "no json here"] 7
            bestTimeDefault :=
  ⟨by decide, parseLLMResponse_no_brace_fallback _ _ (by decide)⟩

/-- C10: `parseLLMResponse` is total — every input yields one of the
three result shapes — and its two failure paths differ: no brace match
yields the confidence-7 fallback, a brace match whose parse throws
yields the confidence-5 fallback, and in both failure cases the
`analysis` and `recommendations` fields echo the full input text. -/
theorem parseLLMResponse_total_and_failure_paths {J : Type}
    (jsonParse : List Char → Option J) (s : List Char) :
    (regexBraceMatch s = none →
      parseLLMResponse jsonParse s = .fallback s [s] 7 bestTimeDefault)
    ∧ (∀ sub, regexBraceMatch s = some sub → jsonParse sub = none →
      parseLLMResponse jsonParse s = .fallback s [s] 5 bestTimeDefault)
    ∧ (∀ sub, regexBraceMatch s = some sub → ∀ v, jsonParse sub = some v →
      parseLLMResponse jsonParse s = .parsed v)
    ∧ (LLMParseResult.fallback s [s] 7 bestTimeDefault
        ≠ (LLMParseResult.fallback s [s] 5 bestTimeDefault : LLMParseResult J)) := by
  refine ⟨?_, ?_, ?_, ?_⟩
  · intro h
    unfold parseLLMResponse
    rw [h]
  · intro sub hsub hp
    unfold parseLLMResponse
    simp only [hsub, hp]
  · intro sub hsub v hp
    unfold parseLLMResponse
    simp only [hsub, hp]
  · simp

/-- Witness for C10: the three paths at concrete inputs. -/
theorem parseLLMResponse_total_and_failure_paths_witness :
    parseLLMResponse (fun _ => (none : Option Unit)) (String.toList "abc")
      = .fallback (String.toList "abc") [String.toList "abc"] 7 bestTimeDefault
    ∧ parseLLMResponse (fun _ => (none : Option Unit)) braceSample
      = .fallback braceSample [braceSample] 5 bestTimeDefault
    ∧ parseLLMResponse (fun _ => (some () : Option Unit)) braceSample
      = .parsed () :=
  ⟨(parseLLMResponse_total_and_failure_paths _ _).1 (by decide),
    (parseLLMResponse_total_and_failure_paths _ _).2.1 braceSample (by decide) rfl,
    (parseLLMResponse_total_and_failure_paths _ _).2.2.1 braceSample (by decide) () rfl⟩
